import Mathlib

/-!
Shallow embedding of the aggregation-and-alerting transform of the
slack-daily-alerts repository (src/slack_post.py and src/email_send.py).

Modelling conventions:
* Python arbitrary-precision `int` is `Int`.
* `decimal.Decimal` values are modelled by `PyDec`: either an exact rational,
  an infinity, or a NaN.  Finite `Decimal` arithmetic appearing in the scripts
  (sums, a single division, multiplication by 100, one-decimal quantize) is
  modelled exactly over `ℚ`; every concrete value appearing in the theorems
  below is representable within the default 28-significant-digit context, so
  the context-precision rounding of `Decimal` division is not observable there.
* Python `str` is `String` (Lean strings are lists of Unicode scalar values,
  matching CPython code-point comparison).  A SQL NULL client name is modelled
  as the empty string: both are falsy in the guards of the scripts.
* `list.sort` / `sorted` with a key are the stable ascending sort of Python; they
  are modelled by `List.insertionSort` with the non-strict key preorder, which
  is likewise stable and ascending.
* Functions that can raise an uncaught exception return `Option` values, with
  `none` marking the escaping exception.
-/

/-- A `decimal.Decimal` value: a finite rational, a signed infinity
(`neg = true` for the negative one), or a (possibly signalling) NaN. -/
inductive PyDec where
  | num (q : ℚ)
  | inf (neg : Bool)
  | nan
deriving DecidableEq

/-- Python `str.isspace` on the characters removed by `str.strip()`
(ASCII whitespace: space and the control characters 9 through 13). -/
def pyIsSpace (c : Char) : Bool :=
  c = ' ' || (9 ≤ c.toNat && c.toNat ≤ 13)

/-- Python `str.strip()` with no argument: remove leading and trailing
whitespace. -/
def pyStrip (s : String) : String :=
  ⟨((s.data.dropWhile pyIsSpace).reverse.dropWhile pyIsSpace).reverse⟩

/-- Value of a nonempty string of ASCII decimal digits, as `int(...)` reads
it. -/
def natOfDigits (l : List Char) : Nat :=
  l.foldl (fun a c => 10 * a + (c.toNat - 48)) 0

/-- Consume an optional leading sign; returns (isNegative, rest). -/
def parseSign : List Char → Bool × List Char
  | '+' :: rest => (false, rest)
  | '-' :: rest => (true, rest)
  | l => (false, l)

/-- Parse the unsigned mantissa of a decimal numeric literal: digits with an
optional decimal point somewhere (at least one digit overall).  Returns the
digit value together with the number of fractional digits. -/
def parseMantissa (l : List Char) : Option (Nat × Nat) :=
  match l.splitOn '.' with
  | [ip] =>
    if !ip.isEmpty && ip.all Char.isDigit then some (natOfDigits ip, 0) else none
  | [ip, fp] =>
    if (!ip.isEmpty || !fp.isEmpty) && ip.all Char.isDigit && fp.all Char.isDigit then
      some (natOfDigits (ip ++ fp), fp.length)
    else none
  | _ => none

/-- Parse an exponent part: optional sign then a nonempty digit string. -/
def parseExp (l : List Char) : Option Int :=
  let p := parseSign l
  if !p.2.isEmpty && p.2.all Char.isDigit then
    some (if p.1 then -(natOfDigits p.2 : Int) else (natOfDigits p.2 : Int))
  else none

/-- Apply a sign to a rational. -/
def applySign (neg : Bool) (q : ℚ) : ℚ :=
  if neg then -q else q

/-- The rational value of an unsigned decimal literal with digit value
`mant`, `frac` digits after the point and exponent `e`: mathematically
`mant * 10 ^ (e - frac)`.  Written with `Rat.divInt` and integer powers so
that the kernel can evaluate it. -/
def decValue (mant frac : Nat) (e : Int) : ℚ :=
  let ex : Int := e - (frac : Int)
  if 0 ≤ ex then Rat.divInt ((mant : Int) * (10 : Int) ^ ex.toNat) 1
  else Rat.divInt (mant : Int) ((10 : Int) ^ (-ex).toNat)

/-- The string grammar of the `decimal.Decimal` constructor, on a string that
carries no surrounding whitespace: underscores are removed, then an optional
sign is followed by either a numeric literal (optional fraction, optional
exponent), an infinity literal, or a (signalling) NaN literal, all
case-insensitive.  `none` models the constructor raising
`InvalidOperation`.  Non-ASCII digits are not modelled. -/
def pyDecimalParse (s : String) : Option PyDec :=
  let l := s.data.filter (fun c => c ≠ '_')
  let p := parseSign l
  let low := p.2.map Char.toLower
  if low = "inf".data || low = "infinity".data then some (.inf p.1)
  else if (low.take 3 = "nan".data && (low.drop 3).all Char.isDigit)
       || (low.take 4 = "snan".data && (low.drop 4).all Char.isDigit) then
    some .nan
  else
    match low.splitOn 'e' with
    | [m] => (parseMantissa m).map
        (fun q => .num (applySign p.1 (decValue q.1 q.2 0)))
    | [m, ex] => do
        let q ← parseMantissa m
        let e ← parseExp ex
        some (.num (applySign p.1 (decValue q.1 q.2 e)))
    | _ => none

/-- Python `int(Decimal(...))` on a finite value truncates toward zero
(`Int.tdiv` is truncating division; the denominator is positive). -/
def truncQ (q : ℚ) : Int :=
  Int.tdiv q.num (q.den : Int)

/-- Multiply a rational by an integer, written with `Rat.divInt` so that the
kernel can evaluate it; `qmulInt_eq` below identifies it with `q * k`. -/
def qmulInt (q : ℚ) (k : Int) : ℚ :=
  Rat.divInt (q.num * k) (q.den : Int)

/-- Divide a rational by 100, written with `Rat.divInt` so that the kernel
can evaluate it; `qdiv100_eq` below identifies it with `q / 100`. -/
def qdiv100 (q : ℚ) : ℚ :=
  Rat.divInt q.num ((q.den : Int) * 100)

/-- Round a rational to the nearest integer, ties to even — the default
`ROUND_HALF_EVEN` of `Decimal.quantize`.  With `q = n / d` (`d > 0`) and
`f = ⌊q⌋`, the fractional part is `(n - f*d) / d`, so it is compared with
one half by comparing `2*(n - f*d)` with `d`. -/
def roundHalfEven (q : ℚ) : Int :=
  let n := q.num
  let d := (q.den : Int)
  let f := Int.fdiv n d
  let rem2 := 2 * (n - f * d)
  if rem2 < d then f
  else if d < rem2 then f + 1
  else if f % 2 = 0 then f else f + 1

/-- Render an integer number of tenths the way `str` prints a `Decimal` with
exponent -1 (one digit after the point). -/
def renderTenths (k : Int) : String :=
  (if k < 0 then "-" else "") ++ toString (k.natAbs / 10) ++ "." ++ toString (k.natAbs % 10)

/-- The percentage-formatting pipeline shared by both scripts:
`(x * 100).quantize(one decimal place)` followed by appending a percent
sign. -/
def fmtPct (x : ℚ) : String :=
  renderTenths (roundHalfEven (qmulInt x 1000)) ++ "%"

/-- One aggregated per-client row, as returned by the SQL query of either
script (`ist_yday, client_name, sent, leads, replies, positives`).  The
`bounces` column selected by the Slack script is never read by
`build_message` and is omitted.  `ist_yday` holds the already-rendered
date string. -/
structure Row where
  client_name : String
  sent : Int
  leads : Int
  replies : Int
  positives : Int
  ist_yday : String
deriving DecidableEq

/-- A `Decidable` witness for the lexicographic order on strings that the
kernel can evaluate (the default one is built on `String.ltb`, whose
iterator recursion does not reduce definitionally).  The proposition is the
standard `String` order; only the decision procedure differs. -/
instance (priority := 2000) decStrLe : DecidableRel (fun a b : String => a ≤ b) :=
  fun a b => decidable_of_iff (a.toList ≤ b.toList) String.le_iff_toList_le.symm

/-- The ascending preorder induced by a Python sort key
`(metric, name)` (tuple comparison is lexicographic). -/
def metricNameLe {α : Type} {β : Type} [LinearOrder β]
    (m : α → β) (nm : α → String) (a b : α) : Prop :=
  m a < m b ∨ (m a = m b ∧ nm a ≤ nm b)

instance {α : Type} {β : Type} [LinearOrder β] (m : α → β) (nm : α → String) :
    DecidableRel (metricNameLe m nm) := fun a b => by
  unfold metricNameLe; infer_instance

/-- The ascending preorder induced by a Python sort key that is the client
name alone. -/
def nameLe {α : Type} (nm : α → String) (a b : α) : Prop :=
  nm a ≤ nm b

instance {α : Type} (nm : α → String) : DecidableRel (nameLe nm) := fun a b => by
  unfold nameLe; infer_instance

/-- Python `str.endswith` for the single character percent. -/
def endsWithPercent (s : String) : Bool :=
  s.data.getLast? = some '%'

/-- Python slicing `s[:-1]`. -/
def dropLastChar (s : String) : String :=
  ⟨s.data.dropLast⟩

/-- Python truthiness test `not raw or not raw.strip()` used by every env
parser. -/
def blankEnv (raw : String) : Bool :=
  raw.data.isEmpty || (pyStrip raw).data.isEmpty

/-- Python `str.isdigit` for a single character: true for the decimal
digits 0-9 and also for characters with the Unicode property
Numeric_Type=Digit, which `int()` rejects.  The latter class is modelled by
its Latin-1 members, the superscripts one, two and three (the full Unicode
class is larger; non-ASCII decimal digits are not modelled, matching
`pyDecimalParse`). -/
def pyIsDigit (c : Char) : Bool :=
  c.isDigit || c = '¹' || c = '²' || c = '³'

/-- The digit-extraction fallback `"".join(ch for ch in s if ch.isdigit())`. -/
def extractDigits (s : String) : List Char :=
  s.data.filter pyIsDigit

/-- Python `int(...)` on a nonempty extracted digit string: the base-10
value when every character is a decimal digit, and `none` — a raised
`ValueError` — when a digit-valued but non-decimal character such as a
superscript is present. -/
def intOfDigits (l : List Char) : Option Int :=
  if l.all Char.isDigit then some (natOfDigits l : Int) else none

namespace SlackPost

/-- src/slack_post.py, `parse_int_env` (lines 14-23): parse the stripped
value with `int(Decimal(s))`; on any exception (including the
`OverflowError`/`ValueError` that `int()` raises on an infinite or NaN
`Decimal`, all caught by the bare `except Exception`) fall back to the
digits extracted from the string, or to the default when there are none.
The fallback `int(digits)` runs inside the `except` handler, so when it
raises — the extracted digits contain a `str.isdigit`-true but non-decimal
character such as a superscript — the `ValueError` escapes uncaught
(result `none`).  No warning is printed and no non-negativity guard is
applied. -/
def parse_int_env (raw : String) (default_value : Int) : Option Int :=
  if blankEnv raw then some default_value
  else
    let s := pyStrip raw
    match pyDecimalParse s with
    | some (.num q) => some (truncQ q)
    | _ =>
      let digits := extractDigits s
      if digits.isEmpty then some default_value else intOfDigits digits

/-- src/slack_post.py, `parse_fraction_env` (lines 25-39).  The arms mirror
the Python control flow: a trailing percent sign is removed and forces a
division by 100; otherwise a finite value strictly greater than 1 is divided
by 100 and any other finite value is returned unchanged.  An infinite value
passes through unchanged (dividing an infinity by 100 leaves it infinite; a
negative infinity fails the `val > 1` test and is returned as is).  A NaN
with a percent sign is returned (NaN divided by 100 is NaN), while `NaN > 1`
signals `InvalidOperation`, which the `except` clause turns into the
default; an unparseable string likewise yields the default. -/
def parse_fraction_env (raw : String) (default_fraction : ℚ) : PyDec :=
  if blankEnv raw then .num default_fraction
  else
    let s := pyStrip raw
    let had_percent := endsWithPercent s
    let cleaned := if had_percent then dropLastChar s else s
    match pyDecimalParse cleaned with
    | some (.num v) =>
      if had_percent then .num (qdiv100 v)
      else if 1 < v then .num (qdiv100 v)
      else .num v
    | some (.inf neg) => .inf neg
    | some .nan => if had_percent then .nan else .num default_fraction
    | none => .num default_fraction

/-- src/slack_post.py, `safe_div` (lines 82-85): exact division, defined as
0 when the denominator is 0 (`if not den`). -/
def safe_div (num den : Int) : ℚ :=
  if den = 0 then 0 else Rat.divInt num den

/-- src/slack_post.py, `d2pct` (lines 87-91): multiply by 100, quantize to
one decimal place (round half to even), append a percent sign.  On a finite
rational the `quantize` call never raises, so the `except` branch is dead
here. -/
def d2pct (x : ℚ) : String :=
  fmtPct x

/-- `total_leads = sum(r["leads"] for r in rows)` (line 104). -/
def total_leads (rows : List Row) : Int :=
  rows.foldl (fun a r => a + r.leads) 0

/-- `total_replies = sum(r["replies"] for r in rows)` (line 105). -/
def total_replies (rows : List Row) : Int :=
  rows.foldl (fun a r => a + r.replies) 0

/-- `total_positives = sum(r["positives"] for r in rows)` (line 106). -/
def total_positives (rows : List Row) : Int :=
  rows.foldl (fun a r => a + r.positives) 0

/-- `overall_reply_rate = safe_div(total_replies, total_leads)` (line 107). -/
def overall_reply_rate (rows : List Row) : ℚ :=
  safe_div (total_replies rows) (total_leads rows)

/-- The `low_leads` list built by the loop of lines 114-121: every row with
`leads < LOW_LEADS_THRESHOLD` contributes `(client_name, leads)`, in row
order.  Note there is no guard on the client name here. -/
def low_leads (T : Int) (rows : List Row) : List (String × Int) :=
  (rows.filter (fun r => r.leads < T)).map (fun r => (r.client_name, r.leads))

/-- The `low_reply` list of lines 114-123: rows whose per-row rate
`safe_div(replies, leads)` is strictly below `LOW_REPLY_RATE_THRESHOLD`
contribute `(client_name, replies, leads, rr)`, in row order. -/
def low_reply (RR : ℚ) (rows : List Row) : List (String × Int × Int × ℚ) :=
  (rows.filter (fun r => safe_div r.replies r.leads < RR)).map
    (fun r => (r.client_name, r.replies, r.leads, safe_div r.replies r.leads))

/-- The `zero_positive` list of lines 114-125: rows with `positives == 0`
contribute `(client_name, positives)`, in row order. -/
def zero_positive (rows : List Row) : List (String × Int) :=
  (rows.filter (fun r => r.positives = 0)).map (fun r => (r.client_name, r.positives))

/-- `low_leads.sort(key=lambda x: (x[1], x[0]))` (line 128): stable
ascending sort by (leads, name). -/
def low_leads_sorted (T : Int) (rows : List Row) : List (String × Int) :=
  List.insertionSort (metricNameLe (fun p => p.2) (fun p => p.1)) (low_leads T rows)

/-- `low_reply.sort(key=lambda x: (x[3], x[0]))` (line 129): stable
ascending sort by (per-row rate, name). -/
def low_reply_sorted (RR : ℚ) (rows : List Row) : List (String × Int × Int × ℚ) :=
  List.insertionSort (metricNameLe (fun p => p.2.2.2) (fun p => p.1)) (low_reply RR rows)

/-- `zero_positive.sort(key=lambda x: x[0])` (line 130): stable ascending
sort by name alone. -/
def zero_positive_sorted (rows : List Row) : List (String × Int) :=
  List.insertionSort (nameLe (fun p => p.1)) (zero_positive rows)

/-- The `text` object of a Slack block: `{"type": ..., "text": ...}`. -/
structure SlackText where
  type : String
  text : String
deriving DecidableEq

/-- A Slack block as built by `build_message`: every block of the script has
the shape `{"type": ..., "text": {"type": ..., "text": ...}}`. -/
structure SlackBlock where
  type : String
  text : SlackText
deriving DecidableEq

/-- `bulletify_low_leads` (lines 144-147). -/
def bulletify_low_leads (items : List (String × Int)) : String :=
  if items.isEmpty then "• None"
  else String.intercalate "\n"
    (items.map (fun p => "• " ++ p.1 ++ ": " ++ toString p.2 ++ " Leads"))

/-- `bulletify_low_reply` (lines 149-155). -/
def bulletify_low_reply (items : List (String × Int × Int × ℚ)) : String :=
  if items.isEmpty then "• None"
  else String.intercalate "\n"
    (items.map (fun p =>
      "• " ++ p.1 ++ ": " ++ toString p.2.1 ++ " Replies / " ++ toString p.2.2.1
        ++ " Leads (" ++ d2pct p.2.2.2 ++ ")"))

/-- `bulletify_zero_pos` (lines 157-160). -/
def bulletify_zero_pos (items : List (String × Int)) : String :=
  if items.isEmpty then "• None"
  else String.intercalate "\n"
    (items.map (fun p => "• " ++ p.1 ++ ": 0 Positive Replies"))

/-- src/slack_post.py, `build_message` (lines 93-183), parameterised by the
two module-level thresholds.  On an empty row set it returns exactly a
header block and one no-data section block; otherwise a header, a summary
section, and one section per alert category. -/
def build_message (T : Int) (RR : ℚ) (rows : List Row) : List SlackBlock :=
  match rows with
  | [] =>
    [⟨"header", ⟨"plain_text", "❗ Daily Campaign Alerts: no data"⟩⟩,
     ⟨"section", ⟨"mrkdwn", "No data for IST yesterday."⟩⟩]
  | r0 :: _ =>
    let ist_date := r0.ist_yday
    let header : SlackBlock :=
      ⟨"header", ⟨"plain_text", "❗ Daily Campaign Alerts: " ++ ist_date⟩⟩
    let summary_lines : List String :=
      [":bar_chart: Yesterday’s Summary",
       "• New Leads: " ++ toString (total_leads rows),
       "• Replies: " ++ toString (total_replies rows),
       "• Positive Replies: " ++ toString (total_positives rows),
       "• Overall Reply Rate: " ++ d2pct (overall_reply_rate rows)]
    let summary_block : SlackBlock :=
      ⟨"section", ⟨"mrkdwn", String.intercalate "\n" summary_lines⟩⟩
    let low_leads_block : SlackBlock :=
      ⟨"section", ⟨"mrkdwn",
        ":chart_with_downwards_trend: Accounts with < " ++ toString T
          ++ " New Leads Contacted Yesterday\n" ++ bulletify_low_leads (low_leads_sorted T rows)⟩⟩
    let low_reply_block : SlackBlock :=
      ⟨"section", ⟨"mrkdwn",
        ":turtle: Accounts with Reply Rate < " ++ d2pct RR
          ++ " for Yesterday\n" ++ bulletify_low_reply (low_reply_sorted RR rows)⟩⟩
    let zero_pos_block : SlackBlock :=
      ⟨"section", ⟨"mrkdwn",
        ":rotating_light: Accounts with 0 Positive Replies from Yesterday\n"
          ++ bulletify_zero_pos (zero_positive_sorted rows)⟩⟩
    [header, summary_block, low_leads_block, low_reply_block, zero_pos_block]

end SlackPost

namespace EmailSend

/-- src/email_send.py, `parse_int_env` (lines 21-39).  Result: the parsed
integer guarded to be the default when negative (`val if val >= 0 else
default_value`); the digit-extraction fallback fires when `Decimal` raises
`InvalidOperation` or when `int()` raises `ValueError` on a NaN; the first
component is `none` when `int(Decimal(s))` raises the `OverflowError` of an
infinite value, which the `except (InvalidOperation, ValueError)` clause
does not catch.  Inside the fallback, `int(digits)` is wrapped in its own
`try`/`except Exception: pass`, so a digit string with a non-decimal digit
character falls through to the warned default instead of raising.  The
second component records whether the warning was printed (digit extraction
empty, or the inner `int(digits)` failed). -/
def parse_int_env (raw : String) (default_value : Int) : Option Int × Bool :=
  if blankEnv raw then (some default_value, false)
  else
    let s := pyStrip raw
    match pyDecimalParse s with
    | some (.num q) =>
      let val := truncQ q
      (some (if 0 ≤ val then val else default_value), false)
    | some (.inf _) => (none, false)
    | some .nan | none =>
      let digits := extractDigits s
      if digits.isEmpty then (some default_value, true)
      else
        match intOfDigits digits with
        | some val => (some (if 0 ≤ val then val else default_value), false)
        | none => (some default_value, true)

/-- `total_sent = sum(r["sent"] for r in rows)` (line 92). -/
def total_sent (rows : List Row) : Int :=
  rows.foldl (fun a r => a + r.sent) 0

/-- `total_leads = sum(r["leads"] for r in rows)` (line 93). -/
def total_leads (rows : List Row) : Int :=
  rows.foldl (fun a r => a + r.leads) 0

/-- `total_replies = sum(r["replies"] for r in rows)` (line 94). -/
def total_replies (rows : List Row) : Int :=
  rows.foldl (fun a r => a + r.replies) 0

/-- `total_pos = sum(r["positives"] for r in rows)` (line 95). -/
def total_pos (rows : List Row) : Int :=
  rows.foldl (fun a r => a + r.positives) 0

/-- The rate underlying the email summary percentage (lines 97-101):
positives over sent, 0 when `total_sent` is falsy. -/
def overall_reply_rate (rows : List Row) : ℚ :=
  if total_sent rows = 0 then 0
  else Rat.divInt (total_pos rows) (total_sent rows)

/-- `reply_rate_pct` (lines 98-101): the formatted percentage string, the
literal "0.0%" when `total_sent` is 0. -/
def reply_rate_pct (pos sent : Int) : String :=
  if sent = 0 then "0.0%" else fmtPct (Rat.divInt pos sent)

/-- `leads_alerts` (lines 104-107): rows with a truthy client name and
`leads < LOW_LEADS_THRESHOLD`, sorted ascending by (leads, name). -/
def leads_alerts (T : Int) (rows : List Row) : List (String × Int) :=
  List.insertionSort (metricNameLe (fun p => p.2) (fun p => p.1))
    ((rows.filter (fun r => r.client_name ≠ "" && r.leads < T)).map
      (fun r => (r.client_name, r.leads)))

/-- `replies_alerts` (lines 108-111): rows with a truthy client name and
`replies <= LOW_REPLY_COUNT_THRESHOLD`, sorted ascending by
(replies, name). -/
def replies_alerts (RC : Int) (rows : List Row) : List (String × Int) :=
  List.insertionSort (metricNameLe (fun p => p.2) (fun p => p.1))
    ((rows.filter (fun r => r.client_name ≠ "" && r.replies ≤ RC)).map
      (fun r => (r.client_name, r.replies)))

/-- `positives_alerts` (lines 112-115): rows with a truthy client name and
`positives == 0`, sorted ascending by name alone. -/
def positives_alerts (rows : List Row) : List (String × Int) :=
  List.insertionSort (nameLe (fun p => p.1))
    ((rows.filter (fun r => r.client_name ≠ "" && r.positives = 0)).map
      (fun r => (r.client_name, r.positives)))

/-- `render_list` (lines 117-121). -/
def render_list (items : List (String × Int)) (label : String) : String :=
  if items.isEmpty then
    "<p style=\"font-size:14px;margin:0 0 8px;\">✅ None</p>"
  else
    let li := String.intercalate "\n"
      (items.map (fun p =>
        "<li><strong>" ++ p.1 ++ "</strong>: " ++ toString p.2 ++ " " ++ label ++ "</li>"))
    "<ul style=\"padding-left:20px;margin:0;font-size:14px;line-height:1.6;\">" ++ li ++ "</ul>"

/-- src/email_send.py, `build_html` (lines 86-162), parameterised by the two
module-level thresholds; returns the pair (html, subject).  On an empty row
set it returns the no-data paragraph and the undated subject; otherwise the
full HTML template of lines 123-160 with the totals, the formatted rate, the
three alert lists, and the date-stamped subject. -/
def build_html (T RC : Int) (rows : List Row) : String × String :=
  match rows with
  | [] => ("<p>No data for IST yesterday.</p>", "Daily Campaign Alerts")
  | r0 :: _ =>
    let ist_date := r0.ist_yday
    let reply_rate_pct := reply_rate_pct (total_pos rows) (total_sent rows)
    let html := String.intercalate "\n"
      ["<div style=\"font-family:Arial,sans-serif;color:#333;max-width:600px;margin:0 auto;line-height:1.6;\">",
       "  <div style=\"background:#0052CC;color:#fff;padding:16px;border-radius:4px;\">",
       "    <h2 style=\"margin:0;font-size:20px;\">⚠️ Daily Campaign Alerts</h2>",
       "    <p style=\"margin:4px 0 0;font-size:14px;\"><strong>Date:</strong> " ++ ist_date ++ "</p>",
       "  </div>",
       "",
       "  <div style=\"padding:16px;background:#f0f4ff;border-radius:4px;margin-top:8px;\">",
       "    <h3 style=\"margin:0 0 8px;font-size:16px;\">📊 Yesterday’s Summary</h3>",
       "    <ul style=\"padding-left:20px;margin:0;font-size:14px;\">",
       "      <li>Total Emails Sent: " ++ toString (total_sent rows) ++ "</li>",
       "      <li>New Leads: " ++ toString (total_leads rows) ++ "</li>",
       "      <li>Replies: " ++ toString (total_replies rows) ++ "</li>",
       "      <li>Positive Replies: " ++ toString (total_pos rows) ++ "</li>",
       "      <li>Reply Rate: " ++ reply_rate_pct ++ "</li>",
       "    </ul>",
       "  </div>",
       "",
       "  <div style=\"padding:16px;background:#fff3cd;border-radius:4px;margin-top:12px;\">",
       "    <h3 style=\"margin:0 0 8px;font-size:16px;color:#856404;\">📉 Accounts with &lt; " ++ toString T ++ " New Leads Contacted</h3>",
       "    " ++ render_list (leads_alerts T rows) "Leads",
       "  </div>",
       "",
       "  <div style=\"padding:16px;background:#f1dfd1;border-radius:4px;margin-top:12px;\">",
       "    <h3 style=\"margin:0 0 8px;font-size:16px;color:#602f0c;\">🗨️ Accounts with ≤ " ++ toString RC ++ " Replies</h3>",
       "    " ++ render_list (replies_alerts RC rows) "Replies",
       "  </div>",
       "",
       "  <div style=\"padding:16px;background:#f8d7da;border-radius:4px;margin-top:12px;\">",
       "    <h3 style=\"margin:0 0 8px;font-size:16px;color:#721c24;\">🚨 Accounts with 0 Positive Replies</h3>",
       "    " ++ render_list (positives_alerts rows) "Positive Replies",
       "  </div>",
       "",
       "  <p style=\"font-size:12px;color:#666;margin-top:12px;\">",
       "    Automated notification, please do not reply.",
       "  </p>",
       "</div>",
       ""]
    let subject := "⚠️ Daily Campaign Alerts: " ++ ist_date
    (html, subject)

end EmailSend

/-! ### Supporting lemmas -/

/-- `qdiv100` is division by 100. -/
theorem qdiv100_eq (q : ℚ) : qdiv100 q = q / 100 := by
  unfold qdiv100
  rw [Rat.divInt_eq_div]
  push_cast
  rw [div_mul_eq_div_div, Rat.num_div_den]

/-- `qmulInt` is multiplication by an integer. -/
theorem qmulInt_eq (q : ℚ) (k : Int) : qmulInt q k = q * (k : ℚ) := by
  unfold qmulInt
  rw [Rat.divInt_eq_div]
  push_cast
  rw [mul_div_right_comm, Rat.num_div_den]

/-- `safe_div` written with ordinary field division. -/
theorem safe_div_eq (num den : Int) :
    SlackPost.safe_div num den = if den = 0 then 0 else (num : ℚ) / (den : ℚ) := by
  unfold SlackPost.safe_div
  split
  · rfl
  · rw [Rat.divInt_eq_div]

/-- The email overall rate written with ordinary field division. -/
theorem email_rate_eq (rows : List Row) :
    EmailSend.overall_reply_rate rows =
      if EmailSend.total_sent rows = 0 then 0
      else (EmailSend.total_pos rows : ℚ) / (EmailSend.total_sent rows : ℚ) := by
  unfold EmailSend.overall_reply_rate
  split
  · rfl
  · rw [Rat.divInt_eq_div]

/-- Python `sum(f(r) for r in rows)` is a left fold; it equals the sum of the
mapped list. -/
theorem foldl_add_eq_sum (f : Row → Int) :
    ∀ (l : List Row) (a : Int), l.foldl (fun s r => s + f r) a = a + (l.map f).sum
  | [], a => by simp
  | r :: l, a => by
    simp only [List.foldl_cons, List.map_cons, List.sum_cons, foldl_add_eq_sum f l]
    ring

/-- `safe_div` of non-negative integers is non-negative. -/
theorem safe_div_nonneg {num den : Int} (hn : 0 ≤ num) (hd : 0 ≤ den) :
    0 ≤ SlackPost.safe_div num den := by
  rw [safe_div_eq]
  split
  · exact le_refl 0
  · exact div_nonneg (by exact_mod_cast hn) (by exact_mod_cast hd)

/-- `safe_div` is at most 1 when the numerator is non-negative and bounded by
the denominator. -/
theorem safe_div_le_one {num den : Int} (hn : 0 ≤ num) (h : num ≤ den) :
    SlackPost.safe_div num den ≤ 1 := by
  rw [safe_div_eq]
  split
  · exact zero_le_one
  · rename_i hden
    have hdpos : (0 : ℚ) < (den : ℚ) := by
      have : 0 ≤ den := le_trans hn h
      exact_mod_cast lt_of_le_of_ne this (Ne.symm hden)
    exact (div_le_one hdpos).mpr (by exact_mod_cast h)

instance {α : Type} {β : Type} [LinearOrder β] (m : α → β) (nm : α → String) :
    IsTotal α (metricNameLe m nm) := by
  constructor
  intro a b
  rcases lt_trichotomy (m a) (m b) with h | h | h
  · exact Or.inl (Or.inl h)
  · rcases le_total (nm a) (nm b) with hle | hle
    · exact Or.inl (Or.inr ⟨h, hle⟩)
    · exact Or.inr (Or.inr ⟨h.symm, hle⟩)
  · exact Or.inr (Or.inl h)

instance {α : Type} {β : Type} [LinearOrder β] (m : α → β) (nm : α → String) :
    IsTrans α (metricNameLe m nm) := by
  constructor
  intro a b c hab hbc
  rcases hab with hab | ⟨hab₁, hab₂⟩
  · rcases hbc with hbc | ⟨hbc₁, hbc₂⟩
    · exact Or.inl (lt_trans hab hbc)
    · exact Or.inl (hbc₁ ▸ hab)
  · rcases hbc with hbc | ⟨hbc₁, hbc₂⟩
    · exact Or.inl (hab₁ ▸ hbc)
    · exact Or.inr ⟨hab₁.trans hbc₁, le_trans hab₂ hbc₂⟩

instance {α : Type} (nm : α → String) : IsTotal α (nameLe nm) :=
  ⟨fun a b => le_total (nm a) (nm b)⟩

instance {α : Type} (nm : α → String) : IsTrans α (nameLe nm) :=
  ⟨fun _ _ _ hab hbc => le_trans hab hbc⟩

/-- Two elements related both ways by `metricNameLe` share their name. -/
theorem metricNameLe_antisymm_name {α : Type} {β : Type} [LinearOrder β]
    (m : α → β) (nm : α → String) (a b : α)
    (h₁ : metricNameLe m nm a b) (h₂ : metricNameLe m nm b a) : nm a = nm b := by
  rcases h₁ with h₁ | ⟨h₁e, h₁le⟩
  · rcases h₂ with h₂ | ⟨h₂e, _⟩
    · exact absurd h₂ (lt_asymm h₁)
    · exact absurd (h₂e ▸ h₁) (lt_irrefl (m b))
  · rcases h₂ with h₂ | ⟨_, h₂le⟩
    · exact absurd (h₁e ▸ h₂) (lt_irrefl (m a))
    · exact le_antisymm h₁le h₂le

/-- Two elements related both ways by `nameLe` share their name. -/
theorem nameLe_antisymm_name {α : Type} (nm : α → String) (a b : α)
    (h₁ : nameLe nm a b) (h₂ : nameLe nm b a) : nm a = nm b :=
  le_antisymm h₁ h₂

/-- A stable sort of two permuted lists yields the same list when the sort
relation is antisymmetric up to names and all names are distinct. -/
theorem insertionSort_eq_of_perm_of_names_nodup {α : Type}
    (rel : α → α → Prop) [DecidableRel rel] [IsTotal α rel] [IsTrans α rel]
    (nm : α → String) (hA : ∀ a b, rel a b → rel b a → nm a = nm b)
    {l₁ l₂ : List α} (hp : List.Perm l₁ l₂)
    (hnd : l₁.Pairwise fun a b => nm a ≠ nm b) :
    List.insertionSort rel l₁ = List.insertionSort rel l₂ := by
  have hsym : ∀ {a b : α}, nm a ≠ nm b → nm b ≠ nm a := fun h => Ne.symm h
  have hp' : List.Perm (List.insertionSort rel l₁) (List.insertionSort rel l₂) :=
    (List.perm_insertionSort rel l₁).trans (hp.trans (List.perm_insertionSort rel l₂).symm)
  have hnd₁ : (List.insertionSort rel l₁).Pairwise (fun a b => nm a ≠ nm b) :=
    ((List.perm_insertionSort rel l₁).pairwise_iff hsym).mpr hnd
  have hnd₂ : (List.insertionSort rel l₂).Pairwise (fun a b => nm a ≠ nm b) :=
    ((List.perm_insertionSort rel l₂).pairwise_iff hsym).mpr ((hp.pairwise_iff hsym).mp hnd)
  have hs₁ : (List.insertionSort rel l₁).Pairwise (fun a b => rel a b ∧ nm a ≠ nm b) :=
    (List.sorted_insertionSort rel l₁).and hnd₁
  have hs₂ : (List.insertionSort rel l₂).Pairwise (fun a b => rel a b ∧ nm a ≠ nm b) :=
    (List.sorted_insertionSort rel l₂).and hnd₂
  haveI : IsAntisymm α (fun a b => rel a b ∧ nm a ≠ nm b) :=
    ⟨fun a b h₁ h₂ => absurd (hA a b h₁.1 h₂.1) h₁.2⟩
  exact List.eq_of_perm_of_sorted hp' hs₁ hs₂

/-- Membership in a sorted alert list, at the level of full entries: an entry
is listed exactly when some row passes the filter and produces it. -/
theorem mem_sorted_entries {γ : Type} (pb : Row → Bool) (g : Row → γ)
    (rel : (String × γ) → (String × γ) → Prop) [DecidableRel rel]
    (rows : List Row) (x : String × γ) :
    x ∈ List.insertionSort rel ((rows.filter pb).map (fun r => (r.client_name, g r)))
      ↔ ∃ r ∈ rows, pb r = true ∧ (r.client_name, g r) = x := by
  rw [(List.perm_insertionSort rel _).mem_iff]
  simp only [List.mem_map, List.mem_filter]
  tauto

/-- Membership among the client names of a sorted alert list. -/
theorem mem_sorted_names {γ : Type} (pb : Row → Bool) (g : Row → γ)
    (rel : (String × γ) → (String × γ) → Prop) [DecidableRel rel]
    (rows : List Row) (n : String) :
    n ∈ (List.insertionSort rel ((rows.filter pb).map (fun r => (r.client_name, g r)))).map
          Prod.fst
      ↔ ∃ r ∈ rows, r.client_name = n ∧ pb r = true := by
  rw [((List.perm_insertionSort rel _).map Prod.fst).mem_iff]
  simp only [List.map_map, List.mem_map, List.mem_filter, Function.comp]
  tauto

/-- When the input rows have pairwise-distinct client names, so do the names
of a sorted alert list (each satisfying client is listed exactly once). -/
theorem nodup_sorted_names {γ : Type} (pb : Row → Bool) (g : Row → γ)
    (rel : (String × γ) → (String × γ) → Prop) [DecidableRel rel]
    (rows : List Row) (hnd : (rows.map Row.client_name).Nodup) :
    ((List.insertionSort rel ((rows.filter pb).map (fun r => (r.client_name, g r)))).map
        Prod.fst).Nodup := by
  have hperm := (List.perm_insertionSort rel
    ((rows.filter pb).map (fun r => (r.client_name, g r)))).map Prod.fst
  rw [hperm.nodup_iff]
  rw [List.map_map]
  have hsub : ((rows.filter pb).map (Prod.fst ∘ fun r => (r.client_name, g r))).Sublist
      (rows.map (Prod.fst ∘ fun r => (r.client_name, g r))) :=
    (List.filter_sublist rows).map _
  exact hsub.nodup hnd

/-- Distinct row names give pairwise-distinct names on the raw entries of an
alert list. -/
theorem pairwise_ne_entries {γ : Type} (pb : Row → Bool) (g : Row → γ)
    (rows : List Row) (hnd : (rows.map Row.client_name).Nodup) :
    ((rows.filter pb).map (fun r => (r.client_name, g r))).Pairwise
      (fun a b => a.1 ≠ b.1) := by
  rw [List.pairwise_map]
  have h1 : rows.Pairwise (fun a b => a.client_name ≠ b.client_name) :=
    List.pairwise_map.mp hnd
  exact List.Pairwise.sublist (List.filter_sublist rows) h1

/-! ### Concrete fixtures used by counterexamples and witnesses -/

/-- Two rows sharing the client name "A" and reply rate 0 but with different
lead counts (only possible when the row source emits duplicate names). -/
def rowDupA : Row := ⟨"A", 1, 10, 0, 1, "2025-01-01"⟩

/-- See `rowDupA`. -/
def rowDupB : Row := ⟨"A", 1, 20, 0, 1, "2025-01-01"⟩

/-- A row with an empty (SQL NULL / empty) client name. -/
def rowNoName : Row := ⟨"", 1, 0, 0, 0, "2025-01-01"⟩

/-- A row with non-negative metrics whose replies (and positives) exceed its
leads (and sent). -/
def rowOver : Row := ⟨"A", 1, 1, 2, 2, "2025-01-01"⟩

/-- The row of end-to-end scenario 2 of the specification:
client C, sent 500, leads 100, replies 3, positives 0. -/
def rowC : Row := ⟨"C", 500, 100, 3, 0, "2025-01-01"⟩

/-- Two rows with distinct client names A and B. -/
def rowA : Row := ⟨"A", 1, 10, 0, 1, "2025-01-01"⟩

/-- See `rowA`. -/
def rowB : Row := ⟨"B", 1, 20, 3, 0, "2025-01-01"⟩

/-! ### Claim theorems -/

/-- C2: for every numerator, the derived rate is exactly 0 whenever its
denominator is 0: the Slack `safe_div` returns 0 on a zero denominator, the
per-row Slack rate is `safe_div` itself, and the email presenter formats the
rate as "0.0%" when total sent is 0.  All functions are total, so no
division-by-zero error can be raised. -/
theorem C2_rate_zero_when_denominator_zero :
    (∀ num : Int, SlackPost.safe_div num 0 = 0) ∧
    (∀ pos : Int, EmailSend.reply_rate_pct pos 0 = "0.0%") := by
  constructor
  · intro num; rfl
  · intro pos; rfl

/-- C6: the digest totals of both presenters are the field-wise sums of the
input rows, and on the empty row set every total is 0 and both overall rates
are 0. -/
theorem C6_totals_are_fieldwise_sums :
    (∀ rows : List Row,
      EmailSend.total_sent rows = (rows.map Row.sent).sum ∧
      EmailSend.total_leads rows = (rows.map Row.leads).sum ∧
      EmailSend.total_replies rows = (rows.map Row.replies).sum ∧
      EmailSend.total_pos rows = (rows.map Row.positives).sum ∧
      SlackPost.total_leads rows = (rows.map Row.leads).sum ∧
      SlackPost.total_replies rows = (rows.map Row.replies).sum ∧
      SlackPost.total_positives rows = (rows.map Row.positives).sum) ∧
    EmailSend.total_sent [] = 0 ∧ EmailSend.total_leads [] = 0 ∧
    EmailSend.total_replies [] = 0 ∧ EmailSend.total_pos [] = 0 ∧
    SlackPost.total_leads [] = 0 ∧ SlackPost.total_replies [] = 0 ∧
    SlackPost.total_positives [] = 0 ∧
    SlackPost.overall_reply_rate [] = 0 ∧ EmailSend.overall_reply_rate [] = 0 := by
  refine ⟨fun rows => ⟨?_, ?_, ?_, ?_, ?_, ?_, ?_⟩, rfl, rfl, rfl, rfl, rfl, rfl, rfl, rfl, rfl⟩
  · simpa [EmailSend.total_sent] using foldl_add_eq_sum Row.sent rows 0
  · simpa [EmailSend.total_leads] using foldl_add_eq_sum Row.leads rows 0
  · simpa [EmailSend.total_replies] using foldl_add_eq_sum Row.replies rows 0
  · simpa [EmailSend.total_pos] using foldl_add_eq_sum Row.positives rows 0
  · simpa [SlackPost.total_leads] using foldl_add_eq_sum Row.leads rows 0
  · simpa [SlackPost.total_replies] using foldl_add_eq_sum Row.replies rows 0
  · simpa [SlackPost.total_positives] using foldl_add_eq_sum Row.positives rows 0

/-- C7: the percentage formatter maps the exact rate 0.12345 to "12.3%"
under one-decimal rounding and maps rate 0 to "0.0%", in both presenters
(the email presenter reaches the exact rate 0.12345 as 2469/20000). -/
theorem C7_percentage_formatting :
    SlackPost.d2pct (0.12345 : ℚ) = "12.3%" ∧
    SlackPost.d2pct 0 = "0.0%" ∧
    EmailSend.reply_rate_pct 2469 20000 = "12.3%" ∧
    EmailSend.reply_rate_pct 0 20000 = "0.0%" := by
  refine ⟨?_, by decide, by decide, by decide⟩
  rw [show (0.12345 : ℚ) = Rat.divInt 12345 100000 by rw [Rat.divInt_eq_div]; norm_num]
  decide

/-- C9: on the empty row set, and for any configured thresholds, the email
presenter returns exactly the minimal no-data paragraph with the fixed
subject, and the Slack presenter returns exactly a header block plus one
no-data section block (two blocks, no alert sections); both functions are
total, so no exception is raised. -/
theorem C9_empty_row_set_payloads (T RC : Int) (RR : ℚ) :
    EmailSend.build_html T RC [] =
      ("<p>No data for IST yesterday.</p>", "Daily Campaign Alerts") ∧
    SlackPost.build_message T RR [] =
      [⟨"header", ⟨"plain_text", "❗ Daily Campaign Alerts: no data"⟩⟩,
       ⟨"section", ⟨"mrkdwn", "No data for IST yesterday."⟩⟩] ∧
    (SlackPost.build_message T RR []).length = 2 := by
  exact ⟨rfl, rfl, rfl⟩

/-- C1 counterexample: a row whose client name is empty is NOT excluded from
the alert lists of the Slack presenter — with the default thresholds it appears in
all three (the Slack loop of lines 114-125 has no client-name guard). -/
theorem C1_counterexample :
    ("", 0) ∈ SlackPost.low_leads_sorted 250 [rowNoName] ∧
    ("", 0, 0, (0 : ℚ)) ∈ SlackPost.low_reply_sorted (Rat.divInt 1 100) [rowNoName] ∧
    ("", 0) ∈ SlackPost.zero_positive_sorted [rowNoName] := by
  decide

/-- C1 amended: rows with an empty client name are excluded from all three
alert lists of the email presenter, but the Slack presenter includes every
row satisfying the predicate of a list regardless of its name; the numeric fields
of every row (empty-named or not) are included in the digest totals of both
presenters. -/
theorem C1_empty_name_handling (T RC : Int) (RR : ℚ) (rows : List Row) :
    (∀ p ∈ EmailSend.leads_alerts T rows, p.1 ≠ "") ∧
    (∀ p ∈ EmailSend.replies_alerts RC rows, p.1 ≠ "") ∧
    (∀ p ∈ EmailSend.positives_alerts rows, p.1 ≠ "") ∧
    (∀ r ∈ rows, r.leads < T →
      (r.client_name, r.leads) ∈ SlackPost.low_leads_sorted T rows) ∧
    (∀ r ∈ rows, SlackPost.safe_div r.replies r.leads < RR →
      (r.client_name, r.replies, r.leads, SlackPost.safe_div r.replies r.leads)
        ∈ SlackPost.low_reply_sorted RR rows) ∧
    (∀ r ∈ rows, r.positives = 0 →
      (r.client_name, r.positives) ∈ SlackPost.zero_positive_sorted rows) ∧
    EmailSend.total_sent rows = (rows.map Row.sent).sum ∧
    EmailSend.total_leads rows = (rows.map Row.leads).sum ∧
    EmailSend.total_replies rows = (rows.map Row.replies).sum ∧
    EmailSend.total_pos rows = (rows.map Row.positives).sum ∧
    SlackPost.total_leads rows = (rows.map Row.leads).sum ∧
    SlackPost.total_replies rows = (rows.map Row.replies).sum ∧
    SlackPost.total_positives rows = (rows.map Row.positives).sum := by
  refine ⟨?_, ?_, ?_, ?_, ?_, ?_, ?_, ?_, ?_, ?_, ?_, ?_, ?_⟩
  · intro p hp
    unfold EmailSend.leads_alerts at hp
    rw [mem_sorted_entries] at hp
    obtain ⟨r, _, hpb, heq⟩ := hp
    simp only [Bool.and_eq_true, decide_eq_true_eq] at hpb
    rw [← heq]
    exact hpb.1
  · intro p hp
    unfold EmailSend.replies_alerts at hp
    rw [mem_sorted_entries] at hp
    obtain ⟨r, _, hpb, heq⟩ := hp
    simp only [Bool.and_eq_true, decide_eq_true_eq] at hpb
    rw [← heq]
    exact hpb.1
  · intro p hp
    unfold EmailSend.positives_alerts at hp
    rw [mem_sorted_entries] at hp
    obtain ⟨r, _, hpb, heq⟩ := hp
    simp only [Bool.and_eq_true, decide_eq_true_eq] at hpb
    rw [← heq]
    exact hpb.1
  · intro r hr hlt
    unfold SlackPost.low_leads_sorted SlackPost.low_leads
    rw [mem_sorted_entries]
    exact ⟨r, hr, by simp [hlt], rfl⟩
  · intro r hr hlt
    unfold SlackPost.low_reply_sorted SlackPost.low_reply
    rw [mem_sorted_entries]
    exact ⟨r, hr, by simp [hlt], rfl⟩
  · intro r hr hz
    unfold SlackPost.zero_positive_sorted SlackPost.zero_positive
    rw [mem_sorted_entries]
    exact ⟨r, hr, by simp [hz], rfl⟩
  · simpa [EmailSend.total_sent] using foldl_add_eq_sum Row.sent rows 0
  · simpa [EmailSend.total_leads] using foldl_add_eq_sum Row.leads rows 0
  · simpa [EmailSend.total_replies] using foldl_add_eq_sum Row.replies rows 0
  · simpa [EmailSend.total_pos] using foldl_add_eq_sum Row.positives rows 0
  · simpa [SlackPost.total_leads] using foldl_add_eq_sum Row.leads rows 0
  · simpa [SlackPost.total_replies] using foldl_add_eq_sum Row.replies rows 0
  · simpa [SlackPost.total_positives] using foldl_add_eq_sum Row.positives rows 0

/-- C1 witness: the amended theorem applied to the concrete row set
containing only client C. -/
theorem C1_witness : ("C" : String) ≠ "" :=
  (C1_empty_name_handling 250 5 (Rat.divInt 1 100) [rowC]).1 ("C", 100) (by decide)

/-- C3 counterexample: a single row set with non-negative integer metrics on
which the overall rates of both presenters exceed 1 (replies exceed leads and
positives exceed sent), so the rate is not a ratio in the interval [0,1]. -/
theorem C3_counterexample :
    (0 ≤ rowOver.sent ∧ 0 ≤ rowOver.leads ∧ 0 ≤ rowOver.replies ∧ 0 ≤ rowOver.positives) ∧
    1 < SlackPost.overall_reply_rate [rowOver] ∧
    1 < EmailSend.overall_reply_rate [rowOver] := by
  decide

/-- C3 amended: for every row set of non-negative integer metrics the
overall rates of both presenters are non-negative, and each rate lies in
[0,1] provided its numerator total does not exceed its denominator total
(replies at most leads for Slack, positives at most sent for email); without
that extra condition the rate can exceed 1. -/
theorem C3_rate_bounds (rows : List Row)
    (h : ∀ r ∈ rows, 0 ≤ r.sent ∧ 0 ≤ r.leads ∧ 0 ≤ r.replies ∧ 0 ≤ r.positives) :
    0 ≤ SlackPost.overall_reply_rate rows ∧
    0 ≤ EmailSend.overall_reply_rate rows ∧
    (SlackPost.total_replies rows ≤ SlackPost.total_leads rows →
      SlackPost.overall_reply_rate rows ≤ 1) ∧
    (EmailSend.total_pos rows ≤ EmailSend.total_sent rows →
      EmailSend.overall_reply_rate rows ≤ 1) := by
  have hsum : ∀ f : Row → Int, (∀ r ∈ rows, 0 ≤ f r) →
      0 ≤ rows.foldl (fun s r => s + f r) 0 := by
    intro f hf
    rw [foldl_add_eq_sum, zero_add]
    refine List.sum_nonneg ?_
    intro x hx
    rw [List.mem_map] at hx
    obtain ⟨r, hr, rfl⟩ := hx
    exact hf r hr
  have hleads : 0 ≤ SlackPost.total_leads rows :=
    hsum Row.leads (fun r hr => (h r hr).2.1)
  have hreplies : 0 ≤ SlackPost.total_replies rows :=
    hsum Row.replies (fun r hr => (h r hr).2.2.1)
  have hsent : 0 ≤ EmailSend.total_sent rows :=
    hsum Row.sent (fun r hr => (h r hr).1)
  have hpos : 0 ≤ EmailSend.total_pos rows :=
    hsum Row.positives (fun r hr => (h r hr).2.2.2)
  have hemail : EmailSend.overall_reply_rate rows =
      SlackPost.safe_div (EmailSend.total_pos rows) (EmailSend.total_sent rows) := rfl
  refine ⟨safe_div_nonneg hreplies hleads, ?_, ?_, ?_⟩
  · rw [hemail]; exact safe_div_nonneg hpos hsent
  · intro hle; exact safe_div_le_one hreplies hle
  · intro hle; rw [hemail]; exact safe_div_le_one hpos hle

/-- C3 witness: the amended theorem applied to the scenario-2 row. -/
theorem C3_witness :
    SlackPost.overall_reply_rate [rowC] ≤ 1 ∧ EmailSend.overall_reply_rate [rowC] ≤ 1 :=
  ⟨(C3_rate_bounds [rowC] (by decide)).2.2.1 (by decide),
   (C3_rate_bounds [rowC] (by decide)).2.2.2 (by decide)⟩

/-- C5 counterexample: with two rows sharing the client name "A" and the
same per-row rate 0 but different lead counts, the Slack low-engagement list
differs between two permutations of the input (the stable sort keeps the
input order of entries with equal (rate, name) keys). -/
theorem C5_counterexample :
    List.Perm [rowDupA, rowDupB] [rowDupB, rowDupA] ∧
    SlackPost.low_reply_sorted (Rat.divInt 1 100) [rowDupA, rowDupB] ≠
      SlackPost.low_reply_sorted (Rat.divInt 1 100) [rowDupB, rowDupA] := by
  constructor
  · decide
  · decide

/-- C5 amended: every alert list of either presenter is sorted ascending by
(triggering metric, client name) — for the two name-sorted lists the
triggering metric is constantly 0, so name order is (metric, name) order —
and, provided the input row sets carry pairwise-distinct client names (as
the grouped query guarantees), the produced lists are identical for any
permutation of the input rows.  With duplicate client names the Slack
low-engagement list can differ between permutations, as the counterexample
shows. -/
theorem C5_sorted_and_permutation_invariant (T RC : Int) (RR : ℚ)
    (rows rows1 rows2 : List Row)
    (hp : List.Perm rows1 rows2)
    (hnd : (rows1.map Row.client_name).Nodup) :
    List.Sorted (metricNameLe (fun p : String × Int => p.2) (fun p => p.1))
      (SlackPost.low_leads_sorted T rows) ∧
    List.Sorted (metricNameLe (fun p : String × Int × Int × ℚ => p.2.2.2) (fun p => p.1))
      (SlackPost.low_reply_sorted RR rows) ∧
    List.Sorted (metricNameLe (fun p : String × Int => p.2) (fun p => p.1))
      (SlackPost.zero_positive_sorted rows) ∧
    List.Sorted (metricNameLe (fun p : String × Int => p.2) (fun p => p.1))
      (EmailSend.leads_alerts T rows) ∧
    List.Sorted (metricNameLe (fun p : String × Int => p.2) (fun p => p.1))
      (EmailSend.replies_alerts RC rows) ∧
    List.Sorted (metricNameLe (fun p : String × Int => p.2) (fun p => p.1))
      (EmailSend.positives_alerts rows) ∧
    SlackPost.low_leads_sorted T rows1 = SlackPost.low_leads_sorted T rows2 ∧
    SlackPost.low_reply_sorted RR rows1 = SlackPost.low_reply_sorted RR rows2 ∧
    SlackPost.zero_positive_sorted rows1 = SlackPost.zero_positive_sorted rows2 ∧
    EmailSend.leads_alerts T rows1 = EmailSend.leads_alerts T rows2 ∧
    EmailSend.replies_alerts RC rows1 = EmailSend.replies_alerts RC rows2 ∧
    EmailSend.positives_alerts rows1 = EmailSend.positives_alerts rows2 := by
  refine ⟨?_, ?_, ?_, ?_, ?_, ?_, ?_, ?_, ?_, ?_, ?_, ?_⟩
  · exact List.sorted_insertionSort _ _
  · exact List.sorted_insertionSort _ _
  · -- sorted by name, and every listed metric is 0, hence sorted by (metric, name)
    have hz : ∀ p ∈ SlackPost.zero_positive_sorted rows, p.2 = 0 := by
      intro p hp'
      unfold SlackPost.zero_positive_sorted SlackPost.zero_positive at hp'
      rw [mem_sorted_entries] at hp'
      obtain ⟨r, _, hpb, heq⟩ := hp'
      simp only [decide_eq_true_eq] at hpb
      rw [← heq]
      exact hpb
    have hs : List.Sorted (nameLe (fun p : String × Int => p.1))
        (SlackPost.zero_positive_sorted rows) := List.sorted_insertionSort _ _
    refine List.Pairwise.imp_of_mem ?_ hs
    intro a b ha hb hr
    exact Or.inr ⟨(hz a ha).trans (hz b hb).symm, hr⟩
  · exact List.sorted_insertionSort _ _
  · exact List.sorted_insertionSort _ _
  · have hz : ∀ p ∈ EmailSend.positives_alerts rows, p.2 = 0 := by
      intro p hp'
      unfold EmailSend.positives_alerts at hp'
      rw [mem_sorted_entries] at hp'
      obtain ⟨r, _, hpb, heq⟩ := hp'
      simp only [Bool.and_eq_true, decide_eq_true_eq] at hpb
      rw [← heq]
      exact hpb.2
    have hs : List.Sorted (nameLe (fun p : String × Int => p.1))
        (EmailSend.positives_alerts rows) := List.sorted_insertionSort _ _
    refine List.Pairwise.imp_of_mem ?_ hs
    intro a b ha hb hr
    exact Or.inr ⟨(hz a ha).trans (hz b hb).symm, hr⟩
  · unfold SlackPost.low_leads_sorted SlackPost.low_leads
    exact insertionSort_eq_of_perm_of_names_nodup _ (fun p => p.1)
      (metricNameLe_antisymm_name _ _) ((hp.filter _).map _)
      (pairwise_ne_entries _ _ rows1 hnd)
  · unfold SlackPost.low_reply_sorted SlackPost.low_reply
    exact insertionSort_eq_of_perm_of_names_nodup _ (fun p => p.1)
      (metricNameLe_antisymm_name _ _) ((hp.filter _).map _)
      (pairwise_ne_entries _ _ rows1 hnd)
  · unfold SlackPost.zero_positive_sorted SlackPost.zero_positive
    exact insertionSort_eq_of_perm_of_names_nodup _ (fun p => p.1)
      (nameLe_antisymm_name _) ((hp.filter _).map _)
      (pairwise_ne_entries _ _ rows1 hnd)
  · unfold EmailSend.leads_alerts
    exact insertionSort_eq_of_perm_of_names_nodup _ (fun p => p.1)
      (metricNameLe_antisymm_name _ _) ((hp.filter _).map _)
      (pairwise_ne_entries _ _ rows1 hnd)
  · unfold EmailSend.replies_alerts
    exact insertionSort_eq_of_perm_of_names_nodup _ (fun p => p.1)
      (metricNameLe_antisymm_name _ _) ((hp.filter _).map _)
      (pairwise_ne_entries _ _ rows1 hnd)
  · unfold EmailSend.positives_alerts
    exact insertionSort_eq_of_perm_of_names_nodup _ (fun p => p.1)
      (nameLe_antisymm_name _) ((hp.filter _).map _)
      (pairwise_ne_entries _ _ rows1 hnd)

/-- C5 witness: the amended theorem applied to the concrete two-client row
set [A, B] and its swap. -/
theorem C5_witness :
    SlackPost.low_leads_sorted 250 [rowA, rowB] =
      SlackPost.low_leads_sorted 250 [rowB, rowA] :=
  (C5_sorted_and_permutation_invariant 250 5 (Rat.divInt 1 100) [] [rowA, rowB]
    [rowB, rowA] (by decide) (by decide)).2.2.2.2.2.2.1

/-- C4: for a row set with distinct, non-empty client names, a client
appears among the names of an alert list exactly when it satisfies the
predicate of that list (strict `leads < T` for low-leads; `replies ≤ RC` for the email
low-engagement list and per-row rate `< RR` for the Slack one;
`positives = 0` for zero-positive), and the names of each list are without
duplicates, so a satisfying client appears exactly once. -/
theorem C4_membership_iff_predicate (T RC : Int) (RR : ℚ) (rows : List Row)
    (hnd : (rows.map Row.client_name).Nodup)
    (hne : ∀ r ∈ rows, r.client_name ≠ "") :
    (∀ n, n ∈ (EmailSend.leads_alerts T rows).map Prod.fst ↔
      ∃ r ∈ rows, r.client_name = n ∧ r.leads < T) ∧
    ((EmailSend.leads_alerts T rows).map Prod.fst).Nodup ∧
    (∀ n, n ∈ (EmailSend.replies_alerts RC rows).map Prod.fst ↔
      ∃ r ∈ rows, r.client_name = n ∧ r.replies ≤ RC) ∧
    ((EmailSend.replies_alerts RC rows).map Prod.fst).Nodup ∧
    (∀ n, n ∈ (EmailSend.positives_alerts rows).map Prod.fst ↔
      ∃ r ∈ rows, r.client_name = n ∧ r.positives = 0) ∧
    ((EmailSend.positives_alerts rows).map Prod.fst).Nodup ∧
    (∀ n, n ∈ (SlackPost.low_leads_sorted T rows).map Prod.fst ↔
      ∃ r ∈ rows, r.client_name = n ∧ r.leads < T) ∧
    ((SlackPost.low_leads_sorted T rows).map Prod.fst).Nodup ∧
    (∀ n, n ∈ (SlackPost.low_reply_sorted RR rows).map Prod.fst ↔
      ∃ r ∈ rows, r.client_name = n ∧ SlackPost.safe_div r.replies r.leads < RR) ∧
    ((SlackPost.low_reply_sorted RR rows).map Prod.fst).Nodup ∧
    (∀ n, n ∈ (SlackPost.zero_positive_sorted rows).map Prod.fst ↔
      ∃ r ∈ rows, r.client_name = n ∧ r.positives = 0) ∧
    ((SlackPost.zero_positive_sorted rows).map Prod.fst).Nodup := by
  refine ⟨?_, ?_, ?_, ?_, ?_, ?_, ?_, ?_, ?_, ?_, ?_, ?_⟩
  · intro n
    unfold EmailSend.leads_alerts
    rw [mem_sorted_names]
    simp only [Bool.and_eq_true, decide_eq_true_eq]
    constructor
    · rintro ⟨r, hr, hn, _, hlt⟩; exact ⟨r, hr, hn, hlt⟩
    · rintro ⟨r, hr, hn, hlt⟩; exact ⟨r, hr, hn, hne r hr, hlt⟩
  · unfold EmailSend.leads_alerts
    exact nodup_sorted_names _ _ _ rows hnd
  · intro n
    unfold EmailSend.replies_alerts
    rw [mem_sorted_names]
    simp only [Bool.and_eq_true, decide_eq_true_eq]
    constructor
    · rintro ⟨r, hr, hn, _, hlt⟩; exact ⟨r, hr, hn, hlt⟩
    · rintro ⟨r, hr, hn, hlt⟩; exact ⟨r, hr, hn, hne r hr, hlt⟩
  · unfold EmailSend.replies_alerts
    exact nodup_sorted_names _ _ _ rows hnd
  · intro n
    unfold EmailSend.positives_alerts
    rw [mem_sorted_names]
    simp only [Bool.and_eq_true, decide_eq_true_eq]
    constructor
    · rintro ⟨r, hr, hn, _, hz⟩; exact ⟨r, hr, hn, hz⟩
    · rintro ⟨r, hr, hn, hz⟩; exact ⟨r, hr, hn, hne r hr, hz⟩
  · unfold EmailSend.positives_alerts
    exact nodup_sorted_names _ _ _ rows hnd
  · intro n
    unfold SlackPost.low_leads_sorted SlackPost.low_leads
    rw [mem_sorted_names]
    simp only [decide_eq_true_eq]
  · unfold SlackPost.low_leads_sorted SlackPost.low_leads
    exact nodup_sorted_names _ _ _ rows hnd
  · intro n
    unfold SlackPost.low_reply_sorted SlackPost.low_reply
    rw [mem_sorted_names]
    simp only [decide_eq_true_eq]
  · unfold SlackPost.low_reply_sorted SlackPost.low_reply
    exact nodup_sorted_names _ _ _ rows hnd
  · intro n
    unfold SlackPost.zero_positive_sorted SlackPost.zero_positive
    rw [mem_sorted_names]
    simp only [decide_eq_true_eq]
  · unfold SlackPost.zero_positive_sorted SlackPost.zero_positive
    exact nodup_sorted_names _ _ _ rows hnd

/-- C4 witness: client C of scenario 2 appears among the email low-leads
names (100 < 250). -/
theorem C4_witness : "C" ∈ (EmailSend.leads_alerts 250 [rowC]).map Prod.fst :=
  ((C4_membership_iff_predicate 250 5 (Rat.divInt 1 100) [rowC] (by decide)
    (by decide)).1 "C").mpr ⟨rowC, by decide, rfl, by decide⟩

/-- Branch equation: blank environment value. -/
theorem email_parse_blank (raw : String) (d : Int) (hb : blankEnv raw = true) :
    EmailSend.parse_int_env raw d = (some d, false) := by
  unfold EmailSend.parse_int_env
  rw [if_pos hb]

/-- Branch equation: the value parses as a finite decimal. -/
theorem email_parse_num (raw : String) (d : Int) (q : ℚ) (hb : blankEnv raw = false)
    (hA : pyDecimalParse (pyStrip raw) = some (.num q)) :
    EmailSend.parse_int_env raw d =
      (some (if 0 ≤ truncQ q then truncQ q else d), false) := by
  unfold EmailSend.parse_int_env
  rw [if_neg (by simp [hb])]
  simp only [hA]

/-- Branch equation: the value parses as an infinity (`int()` raises an
uncaught `OverflowError`). -/
theorem email_parse_inf (raw : String) (d : Int) (b : Bool) (hb : blankEnv raw = false)
    (hA : pyDecimalParse (pyStrip raw) = some (.inf b)) :
    EmailSend.parse_int_env raw d = (none, false) := by
  unfold EmailSend.parse_int_env
  rw [if_neg (by simp [hb])]
  simp only [hA]

/-- Branch equation: the value parses as a NaN (caught `ValueError`), giving
the digit-extraction fallback with its guarded `int(digits)`. -/
theorem email_parse_nan (raw : String) (d : Int) (hb : blankEnv raw = false)
    (hA : pyDecimalParse (pyStrip raw) = some .nan) :
    EmailSend.parse_int_env raw d =
      (if (extractDigits (pyStrip raw)).isEmpty then (some d, true)
       else match intOfDigits (extractDigits (pyStrip raw)) with
            | some val => (some (if 0 ≤ val then val else d), false)
            | none => (some d, true)) := by
  unfold EmailSend.parse_int_env
  rw [if_neg (by simp [hb])]
  simp only [hA]

/-- Branch equation: the value is unparseable (caught `InvalidOperation`),
giving the digit-extraction fallback with its guarded `int(digits)`. -/
theorem email_parse_invalid (raw : String) (d : Int) (hb : blankEnv raw = false)
    (hA : pyDecimalParse (pyStrip raw) = none) :
    EmailSend.parse_int_env raw d =
      (if (extractDigits (pyStrip raw)).isEmpty then (some d, true)
       else match intOfDigits (extractDigits (pyStrip raw)) with
            | some val => (some (if 0 ≤ val then val else d), false)
            | none => (some d, true)) := by
  unfold EmailSend.parse_int_env
  rw [if_neg (by simp [hb])]
  simp only [hA]

/-- A successful `int(digits)` result is non-negative (the extracted
characters carry no sign). -/
theorem intOfDigits_nonneg {l : List Char} {v : Int} (h : intOfDigits l = some v) :
    0 ≤ v := by
  unfold intOfDigits at h
  split at h
  · injection h with h
    omega
  · exact absurd h (by simp)

/-- Branch equation for the Slack parser: blank environment value. -/
theorem slack_parse_blank (raw : String) (d : Int) (hb : blankEnv raw = true) :
    SlackPost.parse_int_env raw d = some d := by
  unfold SlackPost.parse_int_env
  rw [if_pos hb]

/-- Branch equation for the Slack parser: the value parses as a finite
decimal. -/
theorem slack_parse_num (raw : String) (d : Int) (q : ℚ) (hb : blankEnv raw = false)
    (hA : pyDecimalParse (pyStrip raw) = some (.num q)) :
    SlackPost.parse_int_env raw d = some (truncQ q) := by
  unfold SlackPost.parse_int_env
  rw [if_neg (by simp [hb])]
  simp only [hA]

/-- Branch equation for the Slack parser: the value parses as an infinity
(`int()` raises, the bare `except` catches, the digits fallback runs). -/
theorem slack_parse_inf (raw : String) (d : Int) (b : Bool) (hb : blankEnv raw = false)
    (hA : pyDecimalParse (pyStrip raw) = some (.inf b)) :
    SlackPost.parse_int_env raw d =
      (if (extractDigits (pyStrip raw)).isEmpty then some d
       else intOfDigits (extractDigits (pyStrip raw))) := by
  unfold SlackPost.parse_int_env
  rw [if_neg (by simp [hb])]
  simp only [hA]

/-- Branch equation for the Slack parser: the value parses as a NaN. -/
theorem slack_parse_nan (raw : String) (d : Int) (hb : blankEnv raw = false)
    (hA : pyDecimalParse (pyStrip raw) = some .nan) :
    SlackPost.parse_int_env raw d =
      (if (extractDigits (pyStrip raw)).isEmpty then some d
       else intOfDigits (extractDigits (pyStrip raw))) := by
  unfold SlackPost.parse_int_env
  rw [if_neg (by simp [hb])]
  simp only [hA]

/-- Branch equation for the Slack parser: the value is unparseable. -/
theorem slack_parse_invalid (raw : String) (d : Int) (hb : blankEnv raw = false)
    (hA : pyDecimalParse (pyStrip raw) = none) :
    SlackPost.parse_int_env raw d =
      (if (extractDigits (pyStrip raw)).isEmpty then some d
       else intOfDigits (extractDigits (pyStrip raw))) := by
  unfold SlackPost.parse_int_env
  rw [if_neg (by simp [hb])]
  simp only [hA]

/-- C8 counterexample: the Slack parser applies no non-negativity guard and
returns -5 for the input "-5" even with the non-negative default 250; the
`except (InvalidOperation, ValueError)` clause of the email parser does not
catch the `OverflowError` that `int(Decimal("inf"))` raises, so that
exception escapes; and the Slack parser itself raises an uncaught
`ValueError` on the superscript-two input, whose character is accepted by
`str.isdigit` but rejected by `int()` (both escaping exceptions are
modelled by `none`). -/
theorem C8_counterexample :
    SlackPost.parse_int_env "-5" 250 = some (-5) ∧
    EmailSend.parse_int_env "inf" 250 = (none, false) ∧
    SlackPost.parse_int_env "²" 250 = none := by
  decide

/-- C8 amended: integer threshold parsing in the Slack presenter raises
exactly when the decimal parse does not yield a finite value and the
digit-extraction fallback collects a nonempty string on which `int()`
fails (a `str.isdigit`-true but non-decimal character such as a
superscript is present); in the email presenter an exception escapes
exactly on inputs that parse as a decimal infinity (its fallback guards
`int(digits)` with an inner `except` and falls back to the warned
default).  Decorated numeric strings yield their extracted numeric portion
and unparseable strings yield the default, with the warning logged only by
the email presenter; the email parser result is non-negative whenever the
default is, while the Slack parser can return a negative value such
as -5. -/
theorem C8_threshold_parsing :
    (∀ raw : String, ∀ d v : Int, 0 ≤ d →
      (EmailSend.parse_int_env raw d).1 = some v → 0 ≤ v) ∧
    (∀ raw : String, ∀ d : Int, (EmailSend.parse_int_env raw d).1 = none →
      ∃ b, pyDecimalParse (pyStrip raw) = some (.inf b)) ∧
    (∀ raw : String, ∀ d : Int, SlackPost.parse_int_env raw d = none →
      extractDigits (pyStrip raw) ≠ [] ∧
      intOfDigits (extractDigits (pyStrip raw)) = none) ∧
    SlackPost.parse_int_env "250 leads" 7 = some 250 ∧
    SlackPost.parse_int_env "250.0" 7 = some 250 ∧
    EmailSend.parse_int_env "250 leads" 7 = (some 250, false) ∧
    EmailSend.parse_int_env "250.0" 7 = (some 250, false) ∧
    SlackPost.parse_int_env "abc" 9 = some 9 ∧
    EmailSend.parse_int_env "abc" 9 = (some 9, true) ∧
    EmailSend.parse_int_env "²" 9 = (some 9, true) ∧
    SlackPost.parse_int_env "-5" 250 = some (-5) := by
  refine ⟨?_, ?_, ?_, by decide, by decide, by decide, by decide, by decide, by decide,
    by decide, by decide⟩
  · intro raw d v hd h
    rcases hb : blankEnv raw with _ | _
    · rcases hA : pyDecimalParse (pyStrip raw) with _ | pd
      · rw [email_parse_invalid raw d hb hA] at h
        split at h
        · simp only at h; injection h with h; omega
        · rcases hB : intOfDigits (extractDigits (pyStrip raw)) with _ | val
          · simp only [hB] at h
            injection h with h
            omega
          · simp only [hB] at h
            injection h with h
            have hnn := intOfDigits_nonneg hB
            split at h <;> omega
      · rcases pd with q | b | _
        · rw [email_parse_num raw d q hb hA] at h
          simp only at h; injection h with h
          split at h <;> omega
        · rw [email_parse_inf raw d b hb hA] at h
          simp only at h
          exact absurd h (by simp)
        · rw [email_parse_nan raw d hb hA] at h
          split at h
          · simp only at h; injection h with h; omega
          · rcases hB : intOfDigits (extractDigits (pyStrip raw)) with _ | val
            · simp only [hB] at h
              injection h with h
              omega
            · simp only [hB] at h
              injection h with h
              have hnn := intOfDigits_nonneg hB
              split at h <;> omega
    · rw [email_parse_blank raw d hb] at h
      simp only at h; injection h with h; omega
  · intro raw d h
    rcases hb : blankEnv raw with _ | _
    · rcases hA : pyDecimalParse (pyStrip raw) with _ | pd
      · rw [email_parse_invalid raw d hb hA] at h
        split at h
        · simp at h
        · rcases hB : intOfDigits (extractDigits (pyStrip raw)) with _ | val <;>
            simp only [hB] at h <;> simp at h
      · rcases pd with q | b | _
        · rw [email_parse_num raw d q hb hA] at h
          simp at h
        · exact ⟨b, rfl⟩
        · rw [email_parse_nan raw d hb hA] at h
          split at h
          · simp at h
          · rcases hB : intOfDigits (extractDigits (pyStrip raw)) with _ | val <;>
              simp only [hB] at h <;> simp at h
    · rw [email_parse_blank raw d hb] at h
      simp at h
  · intro raw d h
    rcases hb : blankEnv raw with _ | _
    · rcases hA : pyDecimalParse (pyStrip raw) with _ | pd
      · rw [slack_parse_invalid raw d hb hA] at h
        split at h
        · simp at h
        · rename_i hne
          refine ⟨?_, h⟩
          simpa using hne
      · rcases pd with q | b | _
        · rw [slack_parse_num raw d q hb hA] at h
          simp at h
        · rw [slack_parse_inf raw d b hb hA] at h
          split at h
          · simp at h
          · rename_i hne
            refine ⟨?_, h⟩
            simpa using hne
        · rw [slack_parse_nan raw d hb hA] at h
          split at h
          · simp at h
          · rename_i hne
            refine ⟨?_, h⟩
            simpa using hne
    · rw [slack_parse_blank raw d hb] at h
      simp at h

/-- C8 witness: the non-negativity part of the amended theorem applied to
the input "2.9" with default 3 (whose parse truncates to 2). -/
theorem C8_witness : (0 : Int) ≤ 3 ∧ (0 : Int) ≤ 2 :=
  ⟨by decide, C8_threshold_parsing.1 "2.9" 3 2 (by decide) (by decide)⟩

/-- C10: the fraction-threshold parser of the Slack script: a value with a
trailing percent sign is always divided by 100; a parseable numeric value
strictly greater than 1 is reinterpreted as a percentage (divided by 100)
even without a percent sign; a parseable value at most 1 is returned
unchanged. -/
theorem C10_fraction_parsing (raw : String) (d v : ℚ)
    (hblank : blankEnv raw = false) :
    (endsWithPercent (pyStrip raw) = true →
      pyDecimalParse (dropLastChar (pyStrip raw)) = some (.num v) →
      SlackPost.parse_fraction_env raw d = .num (v / 100)) ∧
    (endsWithPercent (pyStrip raw) = false →
      pyDecimalParse (pyStrip raw) = some (.num v) → 1 < v →
      SlackPost.parse_fraction_env raw d = .num (v / 100)) ∧
    (endsWithPercent (pyStrip raw) = false →
      pyDecimalParse (pyStrip raw) = some (.num v) → v ≤ 1 →
      SlackPost.parse_fraction_env raw d = .num v) := by
  refine ⟨?_, ?_, ?_⟩
  · intro h1 h2
    unfold SlackPost.parse_fraction_env
    rw [if_neg (by simp [hblank])]
    simp [h1, h2, qdiv100_eq]
  · intro h1 h2 h3
    unfold SlackPost.parse_fraction_env
    rw [if_neg (by simp [hblank])]
    simp [h1, h2, h3, qdiv100_eq]
  · intro h1 h2 h3
    have h4 : ¬ (1 : ℚ) < v := not_lt.mpr h3
    unfold SlackPost.parse_fraction_env
    rw [if_neg (by simp [hblank])]
    simp [h1, h2, h4]

/-- C10 witness: the input "2" (no percent sign, parses to 2 > 1) yields
2/100 = 0.02. -/
theorem C10_witness : SlackPost.parse_fraction_env "2" 0 = .num ((2 : ℚ) / 100) :=
  (C10_fraction_parsing "2" 0 2 (by decide)).2.1 (by decide) (by decide) (by norm_num)
